import Mathlib

/-!
# Verification of the newsletter-ai-agent event-ingestion pipeline

A shallow embedding of the two source adapters of the repository
(`app/services/luma_scraper.py` and `app/services/luma_client.py`) together
with proofs of the testable properties stated in the design document.

Modelling conventions:
* HTML documents (BeautifulSoup trees) are modelled by the nested inductive
  `Elem`; `find` / `find_all` search descendants in pre-order, as bs4 does.
  bs4 `Tag.__bool__` is `True`, so `x or y` over `find` results is
  None-coalescing and is modelled by `Option.orElse`.
* Python `datetime` values are modelled by `PyDatetime`: a wall-clock reading
  plus an optional UTC offset in minutes (`none` = naive).
  `datetime.fromisoformat` is modelled by `fromisoformat` on the common
  `YYYY-MM-DD[THH:MM[:SS]][±HH:MM]` subset; strings outside the subset are
  treated as unparsable (`none` = `ValueError`).
* The single outbound HTTP attempt of each adapter is modelled by passing the
  transport outcome of the n-th request as an oracle `Nat → Transport β`; the
  adapter functions return the number of requests they issued alongside their
  result, so "exactly one request" and "zero requests" are provable facts.
-/

/-- Python `s.lower()` on the ASCII strings the adapters handle. -/
def pyLower (s : String) : String := String.mk (s.data.map Char.toLower)

/-- Tests whether `needle` occurs as a contiguous run inside `hay`. -/
def listIsInfixOf (needle : List Char) : List Char → Bool
  | [] => needle.isEmpty
  | c :: cs => needle.isPrefixOf (c :: cs) || listIsInfixOf needle cs

/-- Python's `needle in hay` substring test. -/
def strContainsSub (hay needle : String) : Bool := listIsInfixOf needle.data hay.data

/-- Python `s.strip()`: drop leading and trailing whitespace. -/
def pyStrip (s : String) : String :=
  String.mk (((s.data.dropWhile Char.isWhitespace).reverse.dropWhile Char.isWhitespace).reverse)

/-- Python `s.split(sep)` for a one-character separator, as in Python (`''.split` keeps
empty fields, result is never empty). -/
def pySplit (sep : Char) : List Char → List String
  | [] => [""]
  | c :: cs =>
    if c = sep then "" :: pySplit sep cs
    else match pySplit sep cs with
      | [] => [String.mk [c]]
      | f :: rest => String.mk (c :: f.data) :: rest

/-- Python `s.split(sep)[-1]`. -/
def pySplitLast (s : String) (sep : Char) : String := (pySplit sep s.data).getLastD ""

example : pySplit '/' "https://lu.ma".data = ["https:", "", "lu.ma"] := by decide
example : pySplitLast "https://lu.ma/event/abc-123" '/' = "abc-123" := by decide

/-- Python `s.startswith(pre)`. -/
def pyStartsWith (s pre : String) : Bool := pre.data.isPrefixOf s.data

/-! ## Python `datetime` model -/

/-- A naive wall-clock reading: the fields of a `datetime` value. -/
structure DateTuple where
  year : Nat
  month : Nat
  day : Nat
  hour : Nat
  minute : Nat
  second : Nat
deriving DecidableEq, Repr

/-- A `datetime` value: wall-clock fields plus `utcoffset()` in minutes
(`none` models a naive datetime, i.e. `tzinfo is None`). -/
structure PyDatetime where
  wall : DateTuple
  tzOffset : Option Int
deriving DecidableEq, Repr

/-- Proleptic-Gregorian leap year test. -/
def isLeapYear (y : Nat) : Bool := (y % 4 == 0 && y % 100 != 0) || y % 400 == 0

/-- Number of days in a month. -/
def daysInMonth (y m : Nat) : Nat :=
  if m = 2 then (if isLeapYear y then 29 else 28)
  else if m = 4 ∨ m = 6 ∨ m = 9 ∨ m = 11 then 30 else 31

/-- Days since the Unix epoch of a calendar date (standard civil-from-days
inverse; agrees with `datetime.toordinal() - 719163` on valid dates). -/
def daysFromCivil (dt : DateTuple) : Int :=
  let y : Int := if dt.month ≤ 2 then (dt.year : Int) - 1 else (dt.year : Int)
  let era : Int := (if 0 ≤ y then y else y - 399) / 400
  let yoe : Int := y - era * 400
  let mp : Int := ((dt.month : Int) + 9) % 12
  let doy : Int := (153 * mp + 2) / 5 + (dt.day : Int) - 1
  let doe : Int := yoe * 365 + yoe / 4 - yoe / 100 + doy
  era * 146097 + doe - 719468

/-- Seconds since the Unix epoch of the wall-clock reading, ignoring any
timezone. -/
def DateTuple.toSeconds (dt : DateTuple) : Int :=
  daysFromCivil dt * 86400 + dt.hour * 3600 + dt.minute * 60 + dt.second

/-- The instant (seconds since the Unix epoch) a `datetime` denotes: the
wall-clock reading minus the carried UTC offset; a naive reading is
interpreted as UTC. -/
def PyDatetime.instantUTC (d : PyDatetime) : Int :=
  d.wall.toSeconds - 60 * d.tzOffset.getD 0

/-- Models `d.replace(tzinfo=timezone.utc)`: keeps the wall-clock fields and
overwrites the timezone with UTC — it does not convert the instant. -/
def PyDatetime.replaceTzUtc (d : PyDatetime) : PyDatetime := ⟨d.wall, some 0⟩

/-- Models `datetime.now(timezone.utc)`: an aware datetime whose wall clock is the
current UTC reading. -/
def PyDatetime.nowUtc (wall : DateTuple) : PyDatetime := ⟨wall, some 0⟩

/-- Read exactly `n` decimal digits, most significant first. -/
def parseDigits : Nat → Nat → List Char → Option (Nat × List Char)
  | 0, acc, cs => some (acc, cs)
  | n + 1, acc, c :: cs =>
    if c.isDigit then parseDigits n (acc * 10 + (c.toNat - 48)) cs else none
  | _ + 1, _, [] => none

/-- Consume one expected character. -/
def expectChar (c : Char) : List Char → Option (List Char)
  | x :: xs => if x = c then some xs else none
  | [] => none

/-- Read `DD`-`sep`-`DD`: a two-digit field after a separator. -/
def parseSepDigits2 (sep : Char) (cs : List Char) : Option (Nat × List Char) :=
  match expectChar sep cs with
  | none => none
  | some cs1 => parseDigits 2 0 cs1

/-- Read the `YYYY-MM-DD` date part, validating ranges as `date` does. -/
def parseYMD (cs : List Char) : Option (Nat × Nat × Nat × List Char) :=
  match parseDigits 4 0 cs with
  | none => none
  | some (y, cs1) =>
    match parseSepDigits2 '-' cs1 with
    | none => none
    | some (mo, cs2) =>
      match parseSepDigits2 '-' cs2 with
      | none => none
      | some (d, cs3) =>
        if 1 ≤ y && 1 ≤ mo && mo ≤ 12 && 1 ≤ d && d ≤ daysInMonth y mo then
          some (y, mo, d, cs3)
        else none

/-- Read the `HH:MM[:SS]` time part, validating ranges. -/
def parseHMS (cs : List Char) : Option (Nat × Nat × Nat × List Char) :=
  match parseDigits 2 0 cs with
  | none => none
  | some (h, cs1) =>
    match parseSepDigits2 ':' cs1 with
    | none => none
    | some (mi, cs2) =>
      if h ≤ 23 && mi ≤ 59 then
        match cs2 with
        | ':' :: cs3 =>
          match parseDigits 2 0 cs3 with
          | none => none
          | some (sec, cs4) => if sec ≤ 59 then some (h, mi, sec, cs4) else none
        | _ => some (h, mi, 0, cs2)
      else none

/-- Read a trailing `±HH:MM` UTC offset (minutes), consuming the rest. -/
def parseOffsetEnd (cs : List Char) : Option Int :=
  match cs with
  | sign :: cs1 =>
    if sign = '+' || sign = '-' then
      match parseDigits 2 0 cs1 with
      | none => none
      | some (oh, cs2) =>
        match parseSepDigits2 ':' cs2 with
        | none => none
        | some (om, cs3) =>
          if oh ≤ 23 && om ≤ 59 && cs3.isEmpty then
            some ((if sign = '-' then -1 else 1) * ((oh : Int) * 60 + om))
          else none
    else none
  | [] => none

/-- Models `datetime.fromisoformat` on the `YYYY-MM-DD[THH:MM[:SS]][±HH:MM]` subset
of its input language; `none` models the `ValueError` it raises on strings it
does not accept.  Field ranges are validated as `datetime` does (year ≥ 1,
month 1–12, calendar-valid day, hour ≤ 23, minute/second ≤ 59). -/
def fromisoformat (s : String) : Option PyDatetime :=
  match parseYMD s.data with
  | none => none
  | some (y, mo, d, rest) =>
    match rest with
    | [] => some ⟨⟨y, mo, d, 0, 0, 0⟩, none⟩
    | sep :: rest1 =>
      if sep = 'T' || sep = ' ' then
        match parseHMS rest1 with
        | none => none
        | some (h, mi, sec, rest2) =>
          match rest2 with
          | [] => some ⟨⟨y, mo, d, h, mi, sec⟩, none⟩
          | _ =>
            match parseOffsetEnd rest2 with
            | none => none
            | some off => some ⟨⟨y, mo, d, h, mi, sec⟩, some off⟩
      else none

example : fromisoformat "2024-01-01T10:00:00+05:00"
    = some ⟨⟨2024, 1, 1, 10, 0, 0⟩, some 300⟩ := by decide
example : fromisoformat "2024-03-05" = some ⟨⟨2024, 3, 5, 0, 0, 0⟩, none⟩ := by decide
example : fromisoformat "March 5, 2024" = none := by decide
example : fromisoformat "" = none := by decide
example : (⟨⟨2024, 1, 1, 10, 0, 0⟩, some 300⟩ : PyDatetime).instantUTC
    = 1704085200 := by decide

/-! ## DOM model (BeautifulSoup trees)

An `Elem` is a parsed HTML tag: tag name, CSS classes (bs4 exposes the
`class` attribute as a list of strings), the remaining attributes, the
`.text` value (concatenated descendant text, as bs4 computes it) and the
child elements.  `find`/`find_all` search the element's descendants in
document (pre-)order, exactly like `Tag.find`/`Tag.find_all` with their
default `recursive=True`; the searched element itself is never a match.
`Tag.__bool__` is `True` in bs4, so `find(..) or find(..)` chains in the
source are None-coalescing. -/

inductive Elem where
  | mk (tag : String) (classes : List String) (attrs : List (String × String))
      (text : String) (children : List Elem)

def Elem.tag : Elem → String
  | .mk t _ _ _ _ => t

def Elem.classes : Elem → List String
  | .mk _ c _ _ _ => c

def Elem.attrs : Elem → List (String × String)
  | .mk _ _ a _ _ => a

def Elem.text : Elem → String
  | .mk _ _ _ x _ => x

def Elem.children : Elem → List Elem
  | .mk _ _ _ _ ch => ch

/-- Models `tag.get(k)`: attribute lookup, `none` when absent. -/
def Elem.attr (e : Elem) (k : String) : Option String := e.attrs.lookup k

mutual
/-- First match in `e`'s subtree, `e` itself included (pre-order). -/
def findSelfOr (p : Elem → Bool) : Elem → Option Elem
  | .mk t c a x ch =>
    if p (.mk t c a x ch) then some (.mk t c a x ch) else findForest p ch

/-- First match among the subtrees of a forest (pre-order). -/
def findForest (p : Elem → Bool) : List Elem → Option Elem
  | [] => none
  | e :: es =>
    match findSelfOr p e with
    | some r => some r
    | none => findForest p es
end

mutual
/-- All matches in `e`'s subtree, `e` itself included (pre-order). -/
def findAllSelfOr (p : Elem → Bool) : Elem → List Elem
  | .mk t c a x ch =>
    (if p (.mk t c a x ch) then [Elem.mk t c a x ch] else []) ++ findAllForest p ch

/-- All matches among the subtrees of a forest (pre-order). -/
def findAllForest (p : Elem → Bool) : List Elem → List Elem
  | [] => []
  | e :: es => findAllSelfOr p e ++ findAllForest p es
end

/-- Models `e.find(p)`: first matching descendant of `e` (not `e` itself). -/
def Elem.find (e : Elem) (p : Elem → Bool) : Option Elem := findForest p e.children

/-- Models `e.find_all(p)`: all matching descendants of `e` (not `e` itself). -/
def Elem.findAll (e : Elem) (p : Elem → Bool) : List Elem := findAllForest p e.children

/-- Predicate for `find(name)`: match on tag name. -/
def tagIs (t : String) (e : Elem) : Bool := e.tag == t

/-- Predicate for `find(class_=lambda x: x and sub in x.lower())`: bs4 calls the function on
each CSS class of the tag and matches if any call returns `True`; a tag with
no `class` attribute never matches. -/
def classContains (sub : String) (e : Elem) : Bool :=
  e.classes.any fun c => strContainsSub (pyLower c) sub

example :
    ((Elem.mk "div" [] [] "t"
        [Elem.mk "h3" [] [] "T" [], Elem.mk "a" [] [("href", "/e/x")] "" []]).find
      (tagIs "a")).map (·.attr "href") = some (some "/e/x") := by decide

/-! ## Canonical event model -/

/-- Modelled from the spec: `app/models/event.py` is not under `src/`.
`Location` fields are taken from §3 of the design document and from the two
construction sites in the adapters. -/
structure Location where
  city : String
  venue : String
  address : Option String
deriving DecidableEq, Repr

/-- Modelled from the spec: `app/models/event.py` is not under `src/`.
`Organizer` fields are taken from §3 and the adapters' construction sites. -/
structure Organizer where
  name : String
  description : Option String
  website : Option String
deriving DecidableEq, Repr

/-- Modelled from the spec: `app/models/event.py` is not under `src/`.
The fields are exactly the keyword arguments both adapters pass to `Event`;
`end_time` defaults to absent because the scrape adapter never passes it.
`source` is modelled as a plain string — both adapters pass the literal
`"luma"` and the repository's tests construct events successfully, so the
field cannot reject that value. -/
structure Event where
  id : String
  title : String
  description : String
  start_time : PyDatetime
  end_time : Option PyDatetime := none
  location : Location
  organizer : Organizer
  url : String
  image_url : Option String
  category : List String
  is_virtual : Bool
  source : String
deriving DecidableEq, Repr

/-! ## HTTP transport model

Each adapter issues its requests through an oracle `http : Nat → Transport β`
giving the outcome of the n-th outbound request; the adapter returns the
number of requests it issued alongside its result.  A response body is
already in parsed form (`BeautifulSoup` accepts arbitrary markup without
raising, and `response.json()` failures travel the same `RequestException`
path as transport failures in current `requests`). -/

structure HttpResponse (β : Type) where
  status : Nat
  body : β
deriving DecidableEq, Repr

inductive Transport (β : Type) where
  | response (r : HttpResponse β)
  | failure (msg : String)
deriving DecidableEq, Repr

/-- Models `Response.raise_for_status()`, which raises `requests.HTTPError` exactly for
status codes in [400, 600). -/
def isHttpErrorStatus (s : Nat) : Bool := 400 ≤ s && s < 600

/-- Outcome of handling one item inside an adapter's per-item loop:
the item produced an event, produced `None`, or raised an exception that the
loop's `except Exception` arm catches.  In the embedded (pure, total)
per-item functions no exception can arise; `raised` embeds the handler arm
itself. -/
inductive ItemOutcome where
  | parsed (e : Event)
  | skipped
  | raised (msg : String)
deriving DecidableEq, Repr

/-- The adapters' accumulation loop: `try: ... if event: events.append(event)
... except Exception: continue`, returning the accumulated list. -/
def accumulateEvents : List ItemOutcome → List Event
  | [] => []
  | .parsed e :: rest => e :: accumulateEvents rest
  | .skipped :: rest => accumulateEvents rest
  | .raised _ :: rest => accumulateEvents rest

/-! ## Scrape source adapter (`app/services/luma_scraper.py`) -/

namespace LumaScraper

def BASE_URL : String := "https://lu.ma"

/-- Models `urllib.parse.urljoin(base, url)` restricted to the shapes of href the
adapter meets when `base` is the site root `"https://lu.ma"` (which has an
empty path): an empty href resolves to the base itself, an absolute URL is
kept, and a path is attached to the root. -/
def urljoin (base url : String) : String :=
  if url = "" then base
  else if pyStartsWith url "http://" || pyStartsWith url "https://" then url
  else if pyStartsWith url "/" then base ++ url
  else base ++ "/" ++ url

/-- Embeds `_check_if_virtual` (lines 238–241): the venue string, lowercased,
contains one of the five fixed keywords. -/
def checkIfVirtual (venue : String) : Bool :=
  ["virtual", "online", "zoom", "remote", "webinar"].any
    fun kw => strContainsSub (pyLower venue) kw

/-- Title fallback chain (lines 124–128): `h3`, then `h2`, then any tag with
a class containing "title". -/
def titleElem (card : Elem) : Option Elem :=
  (card.find (tagIs "h3")).orElse fun _ =>
    (card.find (tagIs "h2")).orElse fun _ =>
      card.find (classContains "title")

/-- Description fallback chain (lines 136–139): `p`, then a class containing
"description". -/
def descriptionElem (card : Elem) : Option Elem :=
  (card.find (tagIs "p")).orElse fun _ => card.find (classContains "description")

/-- Date fallback chain (lines 152–155): `time`, then a class containing
"date". -/
def dateElemOf (card : Elem) : Option Elem :=
  (card.find (tagIs "time")).orElse fun _ => card.find (classContains "date")

/-- Python `a or b` where `a` is an optional string and the empty string is
falsy. -/
def pyOrStr (a : Option String) (b : Unit → String) : String :=
  match a with
  | some s => if s = "" then b () else s
  | none => b ()

/-- Date-string fallback chain (lines 161–165): the `datetime` attribute,
then the `data-date` attribute, then the element's stripped text; empty
strings fall through like `None` under Python's `or`. -/
def dateStrOf (de : Elem) : String :=
  pyOrStr (de.attr "datetime") fun _ =>
    pyOrStr (de.attr "data-date") fun _ => pyStrip de.text

/-- Venue and address extraction (lines 175–184): inside the first element
with a class containing "location", the venue is the text of a nested
"venue"-classed element or else the location element's own text, and the
address is the text of a nested `address` tag; without a location element the
venue defaults to "TBA" and the address to absent. -/
def venueAddressOf (card : Elem) : String × Option String :=
  match card.find (classContains "location") with
  | none => ("TBA", none)
  | some le =>
    let venue := match le.find (classContains "venue") with
      | some ve => pyStrip ve.text
      | none => pyStrip le.text
    (venue, (le.find (tagIs "address")).map fun ae => pyStrip ae.text)

/-- Organizer extraction (lines 193–208). -/
def organizerOf (card : Elem) : Organizer :=
  match card.find (classContains "organizer") with
  | none => ⟨"Unknown Organizer", none, none⟩
  | some oe =>
    let name := match oe.find (classContains "name") with
      | some ne => pyStrip ne.text
      | none => pyStrip oe.text
    ⟨name, (oe.find (classContains "description")).map fun d => pyStrip d.text, none⟩

/-- Image extraction (lines 211–212): `src` attribute of the first `img`. -/
def imageUrlOf (card : Elem) : Option String :=
  (card.find (tagIs "img")).bind fun ie => ie.attr "src"

/-- Description resolution (lines 136–140): stripped text of the description
element, defaulting to the placeholder sentinel. -/
def descriptionOf (card : Elem) : String :=
  match descriptionElem card with
  | some de => pyStrip de.text
  | none => "No description available"

/-- Start-time resolution (lines 166–170): strict parse then
`.replace(tzinfo=timezone.utc)`; on `ValueError` substitute
`datetime.now(timezone.utc)`. -/
def startTimeOf (de : Elem) (fetchNow : DateTuple) : PyDatetime :=
  match fromisoformat (dateStrOf de) with
  | some d => d.replaceTzUtc
  | none => PyDatetime.nowUtc fetchNow

/-- Embeds `_parse_event_card` (lines 117–236), with the inline locals of the source
factored into the named helpers above.  `fetchNow` is the UTC wall-clock
reading that `datetime.now(timezone.utc)` would return during this call.
Returns `none` exactly where the source returns `None`: no title element, no
anchor element, or no date element. -/
def parseEventCard (card : Elem) (city category : String) (fetchNow : DateTuple) :
    Option Event :=
  match titleElem card with
  | none => none
  | some te =>
    match card.find (tagIs "a") with
    | none => none
    | some linkElem =>
      match dateElemOf card with
      | none => none
      | some de =>
        let eventUrl := urljoin BASE_URL ((linkElem.attr "href").getD "")
        some {
          id := "luma_" ++ pySplitLast eventUrl '/'
          title := pyStrip te.text
          description := descriptionOf card
          start_time := startTimeOf de fetchNow
          location := ⟨city, (venueAddressOf card).1, (venueAddressOf card).2⟩
          organizer := organizerOf card
          url := eventUrl
          image_url := imageUrlOf card
          category := [category]
          is_virtual := checkIfVirtual (venueAddressOf card).1
          source := "luma" }

/-- The claim-C1 notion of a defective card: no title element and no
class-name title match, or no anchor element. -/
def missingTitleOrLink (card : Elem) : Bool :=
  (titleElem card).isNone || (card.find (tagIs "a")).isNone

/-- A card `_parse_event_card` actually drops: missing title, missing anchor,
or missing date element. -/
def missingRequiredField (card : Elem) : Bool :=
  (titleElem card).isNone || (card.find (tagIs "a")).isNone || (dateElemOf card).isNone

/-- Candidate-card selection (lines 88–92): the ordered fallback chain of
`find_all` selectors; Python's `or` takes the first non-empty list. -/
def selectEventCards (soup : Elem) : List Elem :=
  let byTestId := soup.findAll fun e =>
    e.tag == "div" && e.attr "data-testid" == some "event-card"
  if byTestId.isEmpty then
    let byCardClass := soup.findAll fun e => e.tag == "div" && classContains "event-card" e
    if byCardClass.isEmpty then
      soup.findAll fun e => e.tag == "div" && classContains "event" e
    else byCardClass
  else byTestId

/-- The per-card loop body (lines 96–103) for one card. -/
def cardOutcome (card : Elem) (city category : String) (fetchNow : DateTuple) :
    ItemOutcome :=
  match parseEventCard card city category fetchNow with
  | some e => .parsed e
  | none => .skipped

/-- The parsing phase of `get_events` (lines 85–106): select candidate cards,
run the per-card loop, return the accumulated list. -/
def getEventsFromDoc (soup : Elem) (city category : String) (fetchNow : DateTuple) :
    List Event :=
  accumulateEvents ((selectEventCards soup).map (cardOutcome · city category fetchNow))

/-- Errors `get_events` raises; every arm raises `LumaScraperException`, the
constructor records which handler fired.  `sourceUnavailable` is the
`requests.RequestException` arm (transport failures and
`raise_for_status`). -/
inductive ScrapeError where
  | sourceUnavailable (msg : String)
deriving DecidableEq, Repr

/-- Embeds `LumaScraper.get_events` (lines 34–115): build the search request, issue
exactly one GET through `http`, raise for a transport failure or a 4xx/5xx
status, otherwise parse the body.  The pair's second component counts the
outbound requests issued. -/
def getEvents (city category : String) (fetchNow : DateTuple)
    (http : Nat → Transport Elem) : Except ScrapeError (List Event) × Nat :=
  match http 0 with
  | .failure msg => (.error (.sourceUnavailable ("请求Luma网站失败: " ++ msg)), 1)
  | .response r =>
    if isHttpErrorStatus r.status then
      (.error (.sourceUnavailable "请求Luma网站失败: HTTPError"), 1)
    else
      (.ok (getEventsFromDoc r.body city category fetchNow), 1)

end LumaScraper

/-! ## REST source adapter (`app/services/luma_client.py`) -/

namespace LumaClient

/-- One entry of the JSON `location` object. -/
structure RestLocation where
  name : Option String
  address : Option String
deriving DecidableEq, Repr

/-- One entry of the JSON `host` object. -/
structure RestHost where
  name : Option String
  bio : Option String
  website : Option String
deriving DecidableEq, Repr

/-- One element of the response's `events` array; `none` models an absent
key. -/
structure RestEventData where
  id : Option String
  title : Option String
  description : Option String
  start_time : Option String
  end_time : Option String
  location : Option RestLocation
  host : Option RestHost
  url : Option String
  image_url : Option String
  is_virtual : Option Bool
deriving DecidableEq, Repr

/-- The parsed JSON response body: `events_data.get("events", [])`. -/
structure RestBody where
  events : Option (List RestEventData)
deriving DecidableEq, Repr

/-- Errors `get_events` raises; every arm raises `LumaClientException`, the
constructor records the trigger. -/
inductive ClientError where
  | unsupportedCity (city : String)
  | sourceUnavailable (msg : String)
deriving DecidableEq, Repr

/-- The static table of `_get_calendar_id` (lines 96–101). -/
def cityCalendars : List (String × String) :=
  [("NYC", "nyc"), ("New York", "nyc"), ("Boston", "boston")]

/-- Embeds `_get_calendar_id` (lines 93–107): look the stripped city up in the
static table; a missing (or falsy) entry raises the unsupported-city
error. -/
def getCalendarId (city : String) : Except ClientError String :=
  match cityCalendars.lookup (pyStrip city) with
  | some cid => if cid = "" then .error (.unsupportedCity city) else .ok cid
  | none => .error (.unsupportedCity city)

/-- Venue resolution (lines 113–116): `event_data.get("location", {})`
followed by `.get("name", "TBA")`. -/
def venueOf (ed : RestEventData) : String :=
  match ed.location with
  | some l => l.name.getD "TBA"
  | none => "TBA"

/-- Organizer mapping (lines 121–126): `event_data.get("host", {})` with the
documented defaults. -/
def organizerOf (ed : RestEventData) : Organizer :=
  match ed.host with
  | some h => ⟨h.name.getD "Unknown Organizer", h.bio, h.website⟩
  | none => ⟨"Unknown Organizer", none, none⟩

/-- End-time resolution (line 134): `fromisoformat(...).replace(tzinfo=utc)
if event_data.get("end_time") else None`; the outer `none` is the
`ValueError` of a present, truthy, unparsable string (the item is then
skipped), the inner `Option` is the stored field. -/
def endTimeOf (ed : RestEventData) : Option (Option PyDatetime) :=
  match ed.end_time with
  | some s =>
    if s = "" then some none
    else
      match fromisoformat s with
      | some d => some (some d.replaceTzUtc)
      | none => none
  | none => some none

/-- Embeds `_convert_to_event` (lines 109–148), with the source's inline
expressions factored into the named helpers above.  Returns `none` exactly
where the source's `except` arm turns a raised `KeyError`/`ValueError` into
`None`: a missing `id`, `title`, `start_time` or `url` key, an unparsable
`start_time`, or a present-and-truthy but unparsable `end_time`. -/
def convertToEvent (ed : RestEventData) (city category : String) : Option Event :=
  match ed.id, ed.title, ed.start_time, ed.url with
  | some nativeId, some title, some startStr, some url =>
    match fromisoformat startStr, endTimeOf ed with
    | some startDt, some endTime =>
      some {
        id := "luma_" ++ nativeId
        title := title
        description := ed.description.getD "No description available"
        start_time := startDt.replaceTzUtc
        end_time := endTime
        location := ⟨city, venueOf ed, ed.location.bind (·.address)⟩
        organizer := organizerOf ed
        url := url
        image_url := ed.image_url
        category := [category]
        is_virtual := ed.is_virtual.getD false
        source := "luma" }
    | _, _ => none
  | _, _, _, _ => none

/-- The per-item loop body (lines 72–79) for one array element. -/
def itemOutcome (ed : RestEventData) (city category : String) : ItemOutcome :=
  match convertToEvent ed city category with
  | some e => .parsed e
  | none => .skipped

/-- Embeds `LumaClient.get_events` (lines 36–91): resolve the calendar id (no
request issued when that fails), issue exactly one GET through `http`, raise
for a transport failure or a 4xx/5xx status, otherwise convert each element
of the `events` array, skipping the ones that fail.  The pair's second
component counts the outbound requests issued. -/
def getEvents (city category : String) (http : Nat → Transport RestBody) :
    Except ClientError (List Event) × Nat :=
  match getCalendarId city with
  | .error e => (.error e, 0)
  | .ok _ =>
    match http 0 with
    | .failure msg => (.error (.sourceUnavailable ("调用Luma API失败: " ++ msg)), 1)
    | .response r =>
      if isHttpErrorStatus r.status then
        (.error (.sourceUnavailable "调用Luma API失败: HTTPError"), 1)
      else
        (.ok (accumulateEvents ((r.body.events.getD []).map (itemOutcome · city category))), 1)

end LumaClient

/-! ## Concrete inputs used by witnesses and counterexamples -/

/-- A candidate card carrying a title (`h3`) and a link (`a`) but no date
element at all. -/
def cardNoDate : Elem :=
  .mk "div" [] [("data-testid", "event-card")] ""
    [.mk "h3" [] [] "AI Summit" [], .mk "a" [] [("href", "/e/ai-summit")] "Details" []]

/-- A search page whose only candidate card is `cardNoDate`. -/
def docNoDate : Elem := .mk "html" [] [] "" [cardNoDate]

/-- A well-formed candidate card: title, link and a machine-readable
timestamp carrying no offset. -/
def cardGood : Elem :=
  .mk "div" [] [("data-testid", "event-card")] ""
    [.mk "h3" [] [] "AI Summit" [],
     .mk "a" [] [("href", "/e/ai-summit")] "Details" [],
     .mk "time" [] [("datetime", "2025-07-01T18:00:00")] "" []]

/-- The event `cardGood` parses to. -/
def evGood : Event :=
  { id := "luma_ai-summit", title := "AI Summit",
    description := "No description available",
    start_time := ⟨⟨2025, 7, 1, 18, 0, 0⟩, some 0⟩,
    location := ⟨"NYC", "TBA", none⟩,
    organizer := ⟨"Unknown Organizer", none, none⟩,
    url := "https://lu.ma/e/ai-summit", image_url := none,
    category := ["Tech"], is_virtual := false, source := "luma" }

/-- A REST payload item whose `start_time` carries a +05:00 offset. -/
def edOffset : LumaClient.RestEventData :=
  { id := some "ev42", title := some "Founders Meetup",
    description := none, start_time := some "2024-01-01T10:00:00+05:00",
    end_time := none, location := none, host := none,
    url := some "https://lu.ma/ev42", image_url := none, is_virtual := none }

/-- The event `edOffset` converts to. -/
def evOffset : Event :=
  { id := "luma_ev42", title := "Founders Meetup",
    description := "No description available",
    start_time := ⟨⟨2024, 1, 1, 10, 0, 0⟩, some 0⟩,
    location := ⟨"NYC", "TBA", none⟩,
    organizer := ⟨"Unknown Organizer", none, none⟩,
    url := "https://lu.ma/ev42", image_url := none,
    category := ["Tech"], is_virtual := false, source := "luma" }

/-- A candidate card whose venue is "Zoom Webinar Room". -/
def cardZoom : Elem :=
  .mk "div" [] [("data-testid", "event-card")] ""
    [.mk "h3" [] [] "Virtual Pitch Night" [],
     .mk "a" [] [("href", "/e/pitch")] "" [],
     .mk "time" [] [("datetime", "2025-08-01T09:00:00")] "" [],
     .mk "div" ["event-location"] [] "Zoom Webinar Room" []]

/-- The event `cardZoom` parses to. -/
def evZoom : Event :=
  { id := "luma_pitch", title := "Virtual Pitch Night",
    description := "No description available",
    start_time := ⟨⟨2025, 8, 1, 9, 0, 0⟩, some 0⟩,
    location := ⟨"Boston", "Zoom Webinar Room", none⟩,
    organizer := ⟨"Unknown Organizer", none, none⟩,
    url := "https://lu.ma/e/pitch", image_url := none,
    category := ["Tech"], is_virtual := true, source := "luma" }

/-- A REST payload item whose venue is "Zoom Webinar Room" and which reports
no `is_virtual` flag. -/
def edZoom : LumaClient.RestEventData :=
  { id := some "zw1", title := some "Zoom Webinar", description := none,
    start_time := some "2025-09-01T17:00:00", end_time := none,
    location := some ⟨some "Zoom Webinar Room", none⟩, host := none,
    url := some "https://lu.ma/zw1", image_url := none, is_virtual := none }

/-- The event `edZoom` converts to. -/
def evZoomRest : Event :=
  { id := "luma_zw1", title := "Zoom Webinar",
    description := "No description available",
    start_time := ⟨⟨2025, 9, 1, 17, 0, 0⟩, some 0⟩,
    location := ⟨"Boston", "Zoom Webinar Room", none⟩,
    organizer := ⟨"Unknown Organizer", none, none⟩,
    url := "https://lu.ma/zw1", image_url := none,
    category := ["Tech"], is_virtual := false, source := "luma" }

/-- A candidate card whose date element carries only malformed visible
text. -/
def cardBadDate : Elem :=
  .mk "div" [] [("data-testid", "event-card")] ""
    [.mk "h3" [] [] "Networking Night" [],
     .mk "a" [] [("href", "/e/net-1")] "" [],
     .mk "time" [] [] "March 5, 2025" []]

/-- A candidate card with a date element whose extracted date string is
malformed, and with a link but no title element. -/
def cardBadDateNoTitle : Elem :=
  .mk "div" [] [("data-testid", "event-card")] ""
    [.mk "a" [] [("href", "/e/x1")] "" [],
     .mk "time" [] [] "next Friday" []]

/-- A candidate card with a title and a link, no description element, and
also no date element. -/
def cardNoDesc : Elem :=
  .mk "div" [] [("data-testid", "event-card")] ""
    [.mk "h3" [] [] "Builders Breakfast" [],
     .mk "a" [] [("href", "/e/bb-9")] "" []]

/-- An empty search page. -/
def docEmpty : Elem := .mk "html" [] [] "" []

/-- A candidate card whose anchor has no `href`, with title and date
present. -/
def cardNoHref : Elem :=
  .mk "div" [] [("data-testid", "event-card")] ""
    [.mk "h3" [] [] "Demo Day" [],
     .mk "a" [] [] "RSVP" [],
     .mk "time" [] [("datetime", "2025-10-01T10:00:00")] "" []]

/-- A candidate card consisting of nothing but an href-less anchor. -/
def cardOnlyAnchor : Elem :=
  .mk "div" [] [("data-testid", "event-card")] "" [.mk "a" [] [] "RSVP" []]

/-! ## General lemmas about the embedded operations -/

/-- The accumulation loop keeps exactly the `parsed` outcomes, in order. -/
theorem accumulateEvents_eq_filterMap (outs : List ItemOutcome) :
    accumulateEvents outs = outs.filterMap fun o =>
      match o with
      | .parsed e => some e
      | .skipped => none
      | .raised _ => none := by
  induction outs with
  | nil => rfl
  | cons o rest ih => cases o <;> simp [accumulateEvents, ih]

/-- Length of a `filterMap` counts the elements the function keeps. -/
theorem length_filterMap_countP {α β : Type} (f : α → Option β) (l : List α) :
    (l.filterMap f).length = l.countP fun a => (f a).isSome := by
  induction l with
  | nil => rfl
  | cons a l ih =>
    cases h : f a <;> simp [List.filterMap_cons, h, List.countP_cons, ih]

/-- Count of the complement. -/
theorem countP_not_eq_length_sub {α : Type} (p : α → Bool) (l : List α) :
    l.countP (fun a => !p a) = l.length - l.countP p := by
  induction l with
  | nil => rfl
  | cons a l ih =>
    have hle : l.countP p ≤ l.length := List.countP_le_length p
    cases h : p a
    · simp [List.countP_cons, h, ih]
      omega
    · simp [List.countP_cons, h, ih]

/-- The function `listIsInfixOf` decides list containment. -/
theorem listIsInfixOf_iff (n h : List Char) : listIsInfixOf n h = true ↔ n <:+: h := by
  induction h with
  | nil =>
    simp [listIsInfixOf, List.isEmpty_iff, List.infix_nil]
  | cons a h ih =>
    simp [listIsInfixOf, List.infix_cons_iff, ih, List.isPrefixOf_iff_prefix]

/-- The function `strContainsSub` decides substring containment at the character level. -/
theorem strContainsSub_iff (hay needle : String) :
    strContainsSub hay needle = true ↔ needle.data <:+: hay.data := by
  unfold strContainsSub
  exact listIsInfixOf_iff needle.data hay.data

namespace LumaScraper

/-- The parsing phase is the per-card parse filtered over the candidates. -/
theorem getEventsFromDoc_eq_filterMap (soup : Elem) (city category : String)
    (now : DateTuple) :
    getEventsFromDoc soup city category now
      = (selectEventCards soup).filterMap (parseEventCard · city category now) := by
  unfold getEventsFromDoc
  rw [accumulateEvents_eq_filterMap, List.filterMap_map]
  congr 1
  funext c
  unfold cardOutcome
  cases h : parseEventCard c city category now <;> simp [Function.comp, h]

/-- Normal form of a successful card parse. -/
theorem parseEventCard_spec (card : Elem) (city category : String) (now : DateTuple)
    (te ae de : Elem) (ht : titleElem card = some te)
    (ha : card.find (tagIs "a") = some ae) (hd : dateElemOf card = some de) :
    parseEventCard card city category now = some {
      id := "luma_" ++ pySplitLast (urljoin BASE_URL ((ae.attr "href").getD "")) '/'
      title := pyStrip te.text
      description := descriptionOf card
      start_time := startTimeOf de now
      location := ⟨city, (venueAddressOf card).1, (venueAddressOf card).2⟩
      organizer := organizerOf card
      url := urljoin BASE_URL ((ae.attr "href").getD "")
      image_url := imageUrlOf card
      category := [category]
      is_virtual := checkIfVirtual (venueAddressOf card).1
      source := "luma" } := by
  unfold parseEventCard
  rw [ht, ha, hd]

/-- A card parse fails exactly on a missing title, anchor or date element. -/
theorem parseEventCard_eq_none_iff (card : Elem) (city category : String)
    (now : DateTuple) :
    parseEventCard card city category now = none ↔
      titleElem card = none ∨ card.find (tagIs "a") = none ∨ dateElemOf card = none := by
  unfold parseEventCard
  cases h1 : titleElem card <;> simp [h1]
  cases h2 : card.find (tagIs "a") <;> simp [h2]
  cases h3 : dateElemOf card <;> simp [h3]

/-- A card parse succeeds exactly when no required field is missing. -/
theorem parseEventCard_isSome (card : Elem) (city category : String)
    (now : DateTuple) :
    (parseEventCard card city category now).isSome = !missingRequiredField card := by
  unfold missingRequiredField
  cases hp : parseEventCard card city category now with
  | none =>
    rcases (parseEventCard_eq_none_iff card city category now).mp hp with h | h | h <;>
      simp [h]
  | some e =>
    have : ¬ (titleElem card = none ∨ card.find (tagIs "a") = none ∨
        dateElemOf card = none) := by
      intro hor
      have := (parseEventCard_eq_none_iff card city category now).mpr hor
      rw [this] at hp
      exact Option.noConfusion hp
    push_neg at this
    obtain ⟨h1, h2, h3⟩ := this
    simp [Option.isSome_iff_ne_none, h1, h2, h3]

/-- The virtual-venue test, characterised without mentioning the embedded
substring function: it holds iff some fixed keyword occurs inside the
lowercased venue. -/
theorem checkIfVirtual_iff (venue : String) :
    checkIfVirtual venue = true ↔
      ∃ kw ∈ (["virtual", "online", "zoom", "remote", "webinar"] : List String),
        kw.data <:+: (pyLower venue).data := by
  unfold checkIfVirtual
  simp only [List.any_eq_true, strContainsSub_iff]

/-- The start time a kept card gets is always tagged UTC. -/
theorem startTimeOf_tz (de : Elem) (now : DateTuple) :
    (startTimeOf de now).tzOffset = some 0 := by
  unfold startTimeOf
  split <;> rfl

/-- A card with no description element gets the placeholder sentinel. -/
theorem descriptionOf_eq_placeholder (card : Elem) (h : descriptionElem card = none) :
    descriptionOf card = "No description available" := by
  unfold descriptionOf
  rw [h]

/-- Parse failure of the extracted date string yields the fetch time. -/
theorem startTimeOf_eq_now (de : Elem) (now : DateTuple)
    (h : fromisoformat (dateStrOf de) = none) :
    startTimeOf de now = PyDatetime.nowUtc now := by
  unfold startTimeOf
  rw [h]

/-- Parse success of the extracted date string yields the parsed value
reinterpreted at UTC. -/
theorem startTimeOf_eq_parsed (de : Elem) (now : DateTuple) (d : PyDatetime)
    (h : fromisoformat (dateStrOf de) = some d) :
    startTimeOf de now = d.replaceTzUtc := by
  unfold startTimeOf
  rw [h]

/-- Inversion of a successful card parse: the facts the claims need about the
produced event. -/
theorem parseEventCard_inv (card : Elem) (city category : String) (now : DateTuple)
    (e : Event) (h : parseEventCard card city category now = some e) :
    e.start_time.tzOffset = some 0
    ∧ e.source = "luma"
    ∧ e.is_virtual = checkIfVirtual e.location.venue
    ∧ e.location.venue = (venueAddressOf card).1
    ∧ e.end_time = none := by
  unfold parseEventCard at h
  split at h
  · exact absurd h (by simp)
  · split at h
    · exact absurd h (by simp)
    · split at h
      · exact absurd h (by simp)
      · injection h with h'
        subst h'
        exact ⟨startTimeOf_tz _ _, rfl, rfl, rfl, rfl⟩

end LumaScraper

namespace LumaClient

/-- Whatever `endTimeOf` stores is at UTC offset. -/
theorem endTimeOf_tz (ed : RestEventData) (eo : Option PyDatetime) (et : PyDatetime)
    (h : endTimeOf ed = some eo) (h2 : eo = some et) : et.tzOffset = some 0 := by
  unfold endTimeOf at h
  split at h
  · split at h
    · injection h with h'
      subst h'
      exact absurd h2 (by simp)
    · split at h
      · injection h with h'
        subst h'
        injection h2 with h2'
        subst h2'
        rfl
      · exact absurd h (by simp)
  · injection h with h'
    subst h'
    exact absurd h2 (by simp)

/-- Inversion of a successful REST item conversion: the facts the claims need
about the produced event. -/
theorem convertToEvent_inv (ed : RestEventData) (city category : String) (e : Event)
    (h : convertToEvent ed city category = some e) :
    e.start_time.tzOffset = some 0
    ∧ (∀ et, e.end_time = some et → et.tzOffset = some 0)
    ∧ e.is_virtual = ed.is_virtual.getD false
    ∧ e.source = "luma"
    ∧ e.location.venue = venueOf ed := by
  unfold convertToEvent at h
  split at h
  · split at h
    · rename_i sd eo hsd heo
      injection h with h'
      subst h'
      exact ⟨rfl, fun et het => endTimeOf_tz ed eo et heo het, rfl, rfl, rfl⟩
    · exact absurd h (by simp)
  · exact absurd h (by simp)

end LumaClient

/-! ## Claim C1 — result count of the scrape adapter -/

/-- C1 (amended): for every fetched search page, the scrape adapter's result
is the per-card parse filtered over the candidate cards; a card parses iff it
is missing none of title, anchor and date element; hence the result count
equals the number of candidate cards minus the number of cards missing a
title, a link **or a date element**. -/
theorem c1_scrape_result_count :
    (∀ soup city category now,
      LumaScraper.getEventsFromDoc soup city category now
        = (LumaScraper.selectEventCards soup).filterMap
            (LumaScraper.parseEventCard · city category now))
    ∧ (∀ card city category now,
      (LumaScraper.parseEventCard card city category now).isSome
        = !LumaScraper.missingRequiredField card)
    ∧ (∀ soup city category now,
      (LumaScraper.getEventsFromDoc soup city category now).length
        = (LumaScraper.selectEventCards soup).length
          - (LumaScraper.selectEventCards soup).countP
              LumaScraper.missingRequiredField) := by
  refine ⟨LumaScraper.getEventsFromDoc_eq_filterMap,
    LumaScraper.parseEventCard_isSome, ?_⟩
  intro soup city category now
  rw [LumaScraper.getEventsFromDoc_eq_filterMap, length_filterMap_countP]
  have hc : (LumaScraper.selectEventCards soup).countP
        (fun c => (LumaScraper.parseEventCard c city category now).isSome)
      = (LumaScraper.selectEventCards soup).countP
        (fun c => !LumaScraper.missingRequiredField c) := by
    apply List.countP_congr
    intro c _
    rw [LumaScraper.parseEventCard_isSome c city category now]
  rw [hc, countP_not_eq_length_sub]

/-- C1 counterexample: on this page the single candidate card lacks neither
title nor link (it lacks only a date element), yet the result is empty — the
count does not equal "candidate cards" minus "cards missing title or
link". -/
theorem c1_count_claim_false :
    (LumaScraper.selectEventCards docNoDate).length = 1
    ∧ (LumaScraper.selectEventCards docNoDate).countP
        LumaScraper.missingTitleOrLink = 0
    ∧ (LumaScraper.getEventsFromDoc docNoDate "NYC" "Tech" ⟨2025, 1, 1, 0, 0, 0⟩).length
        ≠ (LumaScraper.selectEventCards docNoDate).length
          - (LumaScraper.selectEventCards docNoDate).countP
              LumaScraper.missingTitleOrLink := by
  refine ⟨rfl, rfl, ?_⟩
  decide

/-! ## Claim C2 — UTC normalization of `start_time` -/

/-- C2 (amended): every `start_time` (and any stored `end_time`) produced by
either adapter carries the UTC timezone, but the source timestamp's
wall-clock reading is reinterpreted as UTC rather than converted: the
denoted instant is preserved exactly when the source timestamp is naive or
already carries the UTC offset, while a non-UTC offset is discarded. -/
theorem c2_start_time_utc :
    (∀ ed city category e, LumaClient.convertToEvent ed city category = some e →
      e.start_time.tzOffset = some 0
      ∧ ∀ et, e.end_time = some et → et.tzOffset = some 0)
    ∧ (∀ card city category now e,
      LumaScraper.parseEventCard card city category now = some e →
      e.start_time.tzOffset = some 0)
    ∧ (∀ d : PyDatetime, d.tzOffset.getD 0 = 0 →
      d.replaceTzUtc.instantUTC = d.instantUTC) := by
  refine ⟨fun ed city category e h => ?_, fun card city category now e h => ?_,
    fun d hd => ?_⟩
  · obtain ⟨h1, h2, -⟩ := LumaClient.convertToEvent_inv ed city category e h
    exact ⟨h1, h2⟩
  · exact (LumaScraper.parseEventCard_inv card city category now e h).1
  · unfold PyDatetime.instantUTC PyDatetime.replaceTzUtc
    rw [hd]
    simp

/-- Witness for C2: both adapters applied at a concrete input, plus instant
preservation at a concrete naive timestamp. -/
theorem c2_start_time_utc_witness :
    (LumaClient.convertToEvent edOffset "NYC" "Tech" = some evOffset
      ∧ evOffset.start_time.tzOffset = some 0)
    ∧ (LumaScraper.parseEventCard cardGood "NYC" "Tech" ⟨2025, 1, 1, 0, 0, 0⟩
        = some evGood
      ∧ evGood.start_time.tzOffset = some 0)
    ∧ (⟨⟨2025, 7, 1, 18, 0, 0⟩, none⟩ : PyDatetime).replaceTzUtc.instantUTC
        = (⟨⟨2025, 7, 1, 18, 0, 0⟩, none⟩ : PyDatetime).instantUTC :=
  ⟨⟨by decide, (c2_start_time_utc.1 edOffset "NYC" "Tech" evOffset (by decide)).1⟩,
   ⟨by decide,
    c2_start_time_utc.2.1 cardGood "NYC" "Tech" ⟨2025, 1, 1, 0, 0, 0⟩ evGood (by decide)⟩,
   c2_start_time_utc.2.2 ⟨⟨2025, 7, 1, 18, 0, 0⟩, none⟩ (by decide)⟩

/-- C2 counterexample: a source timestamp carrying +05:00 denotes the
instant 05:00 UTC, but the produced event stores 10:00 UTC — the instant is
not preserved, so the claim's "the instant denoted by the source timestamp
(including any non-UTC offset it carries) equals the instant stored" is
false on this payload. -/
theorem c2_offset_not_converted :
    (LumaClient.convertToEvent edOffset "NYC" "Tech").map
        (fun e => e.start_time.instantUTC) = some 1704103200
    ∧ (fromisoformat "2024-01-01T10:00:00+05:00").map PyDatetime.instantUTC
        = some 1704085200
    ∧ (1704103200 : Int) ≠ 1704085200 := by
  refine ⟨by decide, by decide, by decide⟩

/-! ## Claim C3 — derivation of `is_virtual` -/

/-- C3 (amended): for scrape-adapter events, `is_virtual` is true iff the
resolved venue contains (case-insensitively) one of the five fixed keywords,
and the claim's two venue examples behave as stated; REST-adapter events
instead take `is_virtual` directly from the source's `is_virtual` flag,
defaulting to false, regardless of the venue. -/
theorem c3_is_virtual :
    (∀ card city category now e,
      LumaScraper.parseEventCard card city category now = some e →
      (e.is_virtual = true ↔
        ∃ kw ∈ (["virtual", "online", "zoom", "remote", "webinar"] : List String),
          kw.data <:+: (pyLower e.location.venue).data))
    ∧ LumaScraper.checkIfVirtual "Zoom Webinar Room" = true
    ∧ LumaScraper.checkIfVirtual "123 Main St, Boston" = false
    ∧ (∀ ed city category e, LumaClient.convertToEvent ed city category = some e →
      e.is_virtual = ed.is_virtual.getD false) := by
  refine ⟨fun card city category now e h => ?_, by decide, by decide,
    fun ed city category e h => ?_⟩
  · obtain ⟨-, -, hv, -, -⟩ := LumaScraper.parseEventCard_inv card city category now e h
    rw [hv]
    exact LumaScraper.checkIfVirtual_iff e.location.venue
  · exact (LumaClient.convertToEvent_inv ed city category e h).2.2.1

/-- Witness for C3: both adapters applied at concrete inputs. -/
theorem c3_is_virtual_witness :
    (LumaScraper.parseEventCard cardZoom "Boston" "Tech" ⟨2025, 1, 1, 0, 0, 0⟩
        = some evZoom
      ∧ (evZoom.is_virtual = true ↔
        ∃ kw ∈ (["virtual", "online", "zoom", "remote", "webinar"] : List String),
          kw.data <:+: (pyLower evZoom.location.venue).data))
    ∧ (LumaClient.convertToEvent edZoom "Boston" "Tech" = some evZoomRest
      ∧ evZoomRest.is_virtual = edZoom.is_virtual.getD false) :=
  ⟨⟨by decide,
    c3_is_virtual.1 cardZoom "Boston" "Tech" ⟨2025, 1, 1, 0, 0, 0⟩ evZoom (by decide)⟩,
   ⟨by decide, c3_is_virtual.2.2.2 edZoom "Boston" "Tech" evZoomRest (by decide)⟩⟩

/-- C3 counterexample: the REST adapter produces an event whose venue is
"Zoom Webinar Room" — which contains the keyword "zoom" — with `is_virtual`
false, because it trusts the absent source flag instead of deriving the
value from the venue. -/
theorem c3_rest_flag_not_derived :
    (LumaClient.convertToEvent edZoom "Boston" "Tech").map
        (fun e => (e.is_virtual, e.location.venue))
      = some (false, "Zoom Webinar Room")
    ∧ LumaScraper.checkIfVirtual "Zoom Webinar Room" = true := by
  exact ⟨by decide, by decide⟩

/-! ## Claim C4 — fetch-time fallback for malformed timestamps -/

/-- C4 (amended): a card that has a title and a link and whose date element
is present but whose extracted date string fails strict parsing is kept,
with the current fetch time (tagged UTC) substituted as its start time; such
a card whose extracted date string parses receives its own parsed timestamp;
and the batch result maps each candidate card independently, so siblings are
unaffected. -/
theorem c4_fetch_time_fallback :
    (∀ card city category now te ae de,
      LumaScraper.titleElem card = some te →
      card.find (tagIs "a") = some ae →
      LumaScraper.dateElemOf card = some de →
      fromisoformat (LumaScraper.dateStrOf de) = none →
      (LumaScraper.parseEventCard card city category now).map Event.start_time
        = some (PyDatetime.nowUtc now))
    ∧ (∀ card city category now te ae de d,
      LumaScraper.titleElem card = some te →
      card.find (tagIs "a") = some ae →
      LumaScraper.dateElemOf card = some de →
      fromisoformat (LumaScraper.dateStrOf de) = some d →
      (LumaScraper.parseEventCard card city category now).map Event.start_time
        = some d.replaceTzUtc)
    ∧ (∀ soup city category now,
      LumaScraper.getEventsFromDoc soup city category now
        = (LumaScraper.selectEventCards soup).filterMap
            (LumaScraper.parseEventCard · city category now)) := by
  refine ⟨fun card city category now te ae de ht ha hd hf => ?_,
    fun card city category now te ae de d ht ha hd hf => ?_,
    LumaScraper.getEventsFromDoc_eq_filterMap⟩
  · rw [LumaScraper.parseEventCard_spec card city category now te ae de ht ha hd]
    simp [LumaScraper.startTimeOf_eq_now de now hf]
  · rw [LumaScraper.parseEventCard_spec card city category now te ae de ht ha hd]
    simp [LumaScraper.startTimeOf_eq_parsed de now d hf]

/-- Witness for C4: a malformed-date card gets the fetch time, a sibling
valid-date card gets its own parsed timestamp. -/
theorem c4_fetch_time_fallback_witness :
    ((LumaScraper.parseEventCard cardBadDate "NYC" "Tech" ⟨2025, 3, 1, 12, 0, 0⟩).map
        Event.start_time = some (PyDatetime.nowUtc ⟨2025, 3, 1, 12, 0, 0⟩))
    ∧ ((LumaScraper.parseEventCard cardGood "NYC" "Tech" ⟨2025, 3, 1, 12, 0, 0⟩).map
        Event.start_time = some (⟨⟨2025, 7, 1, 18, 0, 0⟩, some 0⟩ : PyDatetime)) :=
  ⟨c4_fetch_time_fallback.1 cardBadDate "NYC" "Tech" ⟨2025, 3, 1, 12, 0, 0⟩
      (.mk "h3" [] [] "Networking Night" []) (.mk "a" [] [("href", "/e/net-1")] "" [])
      (.mk "time" [] [] "March 5, 2025" []) rfl rfl rfl (by decide),
   c4_fetch_time_fallback.2.1 cardGood "NYC" "Tech" ⟨2025, 3, 1, 12, 0, 0⟩
      (.mk "h3" [] [] "AI Summit" []) (.mk "a" [] [("href", "/e/ai-summit")] "Details" [])
      (.mk "time" [] [("datetime", "2025-07-01T18:00:00")] "" [])
      ⟨⟨2025, 7, 1, 18, 0, 0⟩, none⟩ rfl rfl rfl (by decide)⟩

/-- C4 counterexample: this candidate card's date element is present and its
extracted date string fails strict parsing, yet the card is not kept — it is
dropped for its missing title before date handling is reached — so the
claim's "substitutes the current fetch time as that card's start_time and
keeps the card in the result" does not hold of every such card. -/
theorem c4_malformed_date_card_dropped :
    (LumaScraper.dateElemOf cardBadDateNoTitle).isSome = true
    ∧ (LumaScraper.dateElemOf cardBadDateNoTitle).map
        (fun de => fromisoformat (LumaScraper.dateStrOf de)) = some none
    ∧ LumaScraper.parseEventCard cardBadDateNoTitle "NYC" "Tech" ⟨2025, 1, 1, 0, 0, 0⟩
        = none := by
  refine ⟨rfl, by decide, by decide⟩

/-! ## Claim C5 — placeholder description -/

/-- C5 (amended): a candidate card that has a title, a link **and a date
element** but no description element (neither a `p` container nor a
class-name "description" match) is still included, with the placeholder
sentinel as its description; a successful fetch always returns the
accumulated list, so such a card never fails the batch. -/
theorem c5_placeholder_description :
    (∀ card city category now te ae de,
      LumaScraper.titleElem card = some te →
      card.find (tagIs "a") = some ae →
      LumaScraper.dateElemOf card = some de →
      LumaScraper.descriptionElem card = none →
      (LumaScraper.parseEventCard card city category now).map Event.description
        = some "No description available")
    ∧ (∀ body city category now,
      (LumaScraper.getEvents city category now (fun _ => .response ⟨200, body⟩)).1
        = .ok (LumaScraper.getEventsFromDoc body city category now)) := by
  refine ⟨fun card city category now te ae de ht ha hd hdesc => ?_,
    fun body city category now => rfl⟩
  rw [LumaScraper.parseEventCard_spec card city category now te ae de ht ha hd]
  simp [LumaScraper.descriptionOf_eq_placeholder card hdesc]

/-- Witness for C5: a concrete description-less card is kept with the
placeholder, and a concrete successful fetch returns the accumulated
list. -/
theorem c5_placeholder_description_witness :
    ((LumaScraper.parseEventCard cardGood "NYC" "Tech" ⟨2025, 1, 1, 0, 0, 0⟩).map
        Event.description = some "No description available")
    ∧ (LumaScraper.getEvents "NYC" "Tech" ⟨2025, 1, 1, 0, 0, 0⟩
        (fun _ => .response ⟨200, docNoDate⟩)).1
        = .ok (LumaScraper.getEventsFromDoc docNoDate "NYC" "Tech" ⟨2025, 1, 1, 0, 0, 0⟩) :=
  ⟨c5_placeholder_description.1 cardGood "NYC" "Tech" ⟨2025, 1, 1, 0, 0, 0⟩
      (.mk "h3" [] [] "AI Summit" []) (.mk "a" [] [("href", "/e/ai-summit")] "Details" [])
      (.mk "time" [] [("datetime", "2025-07-01T18:00:00")] "" []) rfl rfl rfl rfl,
   c5_placeholder_description.2 docNoDate "NYC" "Tech" ⟨2025, 1, 1, 0, 0, 0⟩⟩

/-- C5 counterexample: this candidate card has a title and a link and no
description element, yet its event is not in the result at all — the code
drops it for its missing date element — contradicting the claim's "still
includes that card's event in the result". -/
theorem c5_title_link_not_sufficient :
    LumaScraper.descriptionElem cardNoDesc = none
    ∧ (LumaScraper.titleElem cardNoDesc).isSome = true
    ∧ (cardNoDesc.find (tagIs "a")).isSome = true
    ∧ LumaScraper.parseEventCard cardNoDesc "NYC" "Tech" ⟨2025, 1, 1, 0, 0, 0⟩ = none := by
  refine ⟨rfl, rfl, rfl, by decide⟩

/-! ## Claim C6 — per-card exceptions never abort the batch -/

/-- C6: an exception raised while parsing one candidate card is caught and
the card skipped — the accumulation loop continues past a `raised` outcome
and returns the events accumulated before and after it — and a fetch whose
single request succeeds always returns the accumulated list rather than a
failure. -/
theorem c6_per_card_exception_skips :
    (∀ pre post msg,
      accumulateEvents (pre ++ ItemOutcome.raised msg :: post)
        = accumulateEvents pre ++ accumulateEvents post)
    ∧ (∀ body city category now,
      (LumaScraper.getEvents city category now
          (fun _ => Transport.response ⟨200, body⟩)).1
        = Except.ok (LumaScraper.getEventsFromDoc body city category now)) := by
  refine ⟨fun pre post msg => ?_, fun body city category now => rfl⟩
  induction pre with
  | nil => simp [accumulateEvents]
  | cons o pre ih => cases o <;> simp [accumulateEvents, ih]

/-! ## Claim C7 — unsupported city, zero requests -/

/-- C7: a city absent from the static city-to-calendar table makes the REST
adapter's `get_events` raise the unsupported-city error with zero outbound
requests issued — the error precedes any request, so nothing is retried. -/
theorem c7_unsupported_city_no_request :
    ∀ city category http,
      LumaClient.cityCalendars.lookup (pyStrip city) = none →
      LumaClient.getEvents city category http
        = (.error (.unsupportedCity city), 0) := by
  intro city category http h
  unfold LumaClient.getEvents LumaClient.getCalendarId
  rw [h]

/-- Witness for C7: the city "Paris" is not in the table; the call errors
with zero requests against an oracle that would fail if consulted. -/
theorem c7_unsupported_city_no_request_witness :
    LumaClient.cityCalendars.lookup (pyStrip "Paris") = none
    ∧ LumaClient.getEvents "Paris" "Tech" (fun _ => Transport.failure "down")
        = (.error (.unsupportedCity "Paris"), 0) :=
  ⟨by decide,
   c7_unsupported_city_no_request "Paris" "Tech" (fun _ => Transport.failure "down")
     (by decide)⟩

/-! ## Claim C8 — source-unavailable after exactly one attempt -/

/-- C8 (amended): on either adapter, a transport failure or a 4xx/5xx
response makes the call raise the source-unavailable error after exactly one
outbound request (no internal retry, no partial list); statuses outside
[400, 600) — including non-2xx ones such as 304 — do not raise. -/
theorem c8_source_unavailable_one_attempt :
    (∀ city category now msg,
      LumaScraper.getEvents city category now (fun _ => Transport.failure msg)
        = (.error (.sourceUnavailable ("请求Luma网站失败: " ++ msg)), 1))
    ∧ (∀ city category now r, isHttpErrorStatus r.status = true →
      LumaScraper.getEvents city category now (fun _ => Transport.response r)
        = (.error (.sourceUnavailable "请求Luma网站失败: HTTPError"), 1))
    ∧ (∀ city category cid msg, LumaClient.getCalendarId city = .ok cid →
      LumaClient.getEvents city category (fun _ => Transport.failure msg)
        = (.error (.sourceUnavailable ("调用Luma API失败: " ++ msg)), 1))
    ∧ (∀ city category cid r, LumaClient.getCalendarId city = .ok cid →
      isHttpErrorStatus r.status = true →
      LumaClient.getEvents city category (fun _ => Transport.response r)
        = (.error (.sourceUnavailable "调用Luma API失败: HTTPError"), 1)) := by
  refine ⟨fun city category now msg => rfl,
    fun city category now r hs => ?_,
    fun city category cid msg hc => ?_,
    fun city category cid r hc hs => ?_⟩
  · unfold LumaScraper.getEvents
    simp [hs]
  · unfold LumaClient.getEvents
    rw [hc]
  · unfold LumaClient.getEvents
    rw [hc]
    simp [hs]

/-- Witness for C8: all four failure shapes at concrete inputs. -/
theorem c8_source_unavailable_one_attempt_witness :
    (LumaScraper.getEvents "NYC" "Tech" ⟨2025, 1, 1, 0, 0, 0⟩
        (fun _ => Transport.failure "timeout")
      = (.error (.sourceUnavailable ("请求Luma网站失败: " ++ "timeout")), 1))
    ∧ (isHttpErrorStatus 500 = true
      ∧ LumaScraper.getEvents "NYC" "Tech" ⟨2025, 1, 1, 0, 0, 0⟩
          (fun _ => Transport.response ⟨500, docEmpty⟩)
        = (.error (.sourceUnavailable "请求Luma网站失败: HTTPError"), 1))
    ∧ (LumaClient.getCalendarId "NYC" = .ok "nyc"
      ∧ LumaClient.getEvents "NYC" "Tech" (fun _ => Transport.failure "timeout")
        = (.error (.sourceUnavailable ("调用Luma API失败: " ++ "timeout")), 1))
    ∧ LumaClient.getEvents "NYC" "Tech" (fun _ => Transport.response ⟨503, ⟨some []⟩⟩)
        = (.error (.sourceUnavailable "调用Luma API失败: HTTPError"), 1) :=
  ⟨c8_source_unavailable_one_attempt.1 "NYC" "Tech" ⟨2025, 1, 1, 0, 0, 0⟩ "timeout",
   ⟨rfl, c8_source_unavailable_one_attempt.2.1 "NYC" "Tech" ⟨2025, 1, 1, 0, 0, 0⟩
      ⟨500, docEmpty⟩ rfl⟩,
   ⟨rfl, c8_source_unavailable_one_attempt.2.2.1 "NYC" "Tech" "nyc" "timeout" rfl⟩,
   c8_source_unavailable_one_attempt.2.2.2 "NYC" "Tech" "nyc" ⟨503, ⟨some []⟩⟩ rfl rfl⟩

/-- C8 counterexample: a 304 response is non-2xx, yet `raise_for_status`
does not fire — the scrape adapter returns an (empty) event list instead of
raising, so "non-2xx → source-unavailable" is false as stated. -/
theorem c8_304_returns_ok :
    isHttpErrorStatus 304 = false
    ∧ LumaScraper.getEvents "NYC" "Tech" ⟨2025, 1, 1, 0, 0, 0⟩
        (fun _ => Transport.response ⟨304, docEmpty⟩) = (.ok [], 1) := by
  exact ⟨rfl, rfl⟩

/-! ## Claim C9 — provenance tag -/

/-- C9 (amended): every event either adapter produces carries the same
provenance string `"luma"` in its `source` field; the adapters' outputs are
not distinguishable by `source`, and the tags `"rest"`/`"scrape"` never
occur. -/
theorem c9_source_tag_luma :
    (∀ card city category now e,
      LumaScraper.parseEventCard card city category now = some e →
      e.source = "luma")
    ∧ (∀ ed city category e,
      LumaClient.convertToEvent ed city category = some e → e.source = "luma") :=
  ⟨fun card city category now e h =>
    (LumaScraper.parseEventCard_inv card city category now e h).2.1,
   fun ed city category e h =>
    (LumaClient.convertToEvent_inv ed city category e h).2.2.2.1⟩

/-- Witness for C9: both adapters applied at concrete inputs. -/
theorem c9_source_tag_luma_witness :
    (LumaScraper.parseEventCard cardGood "NYC" "Tech" ⟨2025, 1, 1, 0, 0, 0⟩
        = some evGood ∧ evGood.source = "luma")
    ∧ (LumaClient.convertToEvent edOffset "NYC" "Tech" = some evOffset
      ∧ evOffset.source = "luma") :=
  ⟨⟨by decide,
    c9_source_tag_luma.1 cardGood "NYC" "Tech" ⟨2025, 1, 1, 0, 0, 0⟩ evGood (by decide)⟩,
   ⟨by decide, c9_source_tag_luma.2 edOffset "NYC" "Tech" evOffset (by decide)⟩⟩

/-- C9 counterexample: concrete events from both adapters carry the source
tag `"luma"`, which is neither `"rest"` nor `"scrape"` — the adapters'
outputs are not distinguishable by `source`. -/
theorem c9_tags_not_rest_scrape :
    ((LumaScraper.parseEventCard cardGood "NYC" "Tech" ⟨2025, 1, 1, 0, 0, 0⟩).map
        Event.source = some "luma")
    ∧ ((LumaClient.convertToEvent edOffset "NYC" "Tech").map Event.source
        = some "luma")
    ∧ ("luma" : String) ≠ "scrape" ∧ ("luma" : String) ≠ "rest" := by
  exact ⟨by decide, by decide, by decide, by decide⟩

/-! ## Claim C10 — anchor without an href -/

/-- C10 (amended): a candidate card that (besides its href-less first
anchor) has a title and a date element is not skipped: the empty href
resolves against the base URI, so its event is included with `url` equal to
the adapter's base URL and `id` equal to `"luma_"` followed by the base
URL's final `/`-separated segment (`"luma_lu.ma"`). -/
theorem c10_missing_href_base_url :
    ∀ card city category now te ae de,
      LumaScraper.titleElem card = some te →
      card.find (tagIs "a") = some ae →
      ae.attr "href" = none →
      LumaScraper.dateElemOf card = some de →
      (LumaScraper.parseEventCard card city category now).map (fun e => (e.url, e.id))
        = some (LumaScraper.BASE_URL,
            "luma_" ++ pySplitLast LumaScraper.BASE_URL '/') := by
  intro card city category now te ae de ht ha hh hd
  rw [LumaScraper.parseEventCard_spec card city category now te ae de ht ha hd, hh]
  rfl

/-- Witness for C10: the concrete card keeps its event with the base URL and
the id `"luma_lu.ma"`. -/
theorem c10_missing_href_base_url_witness :
    (LumaScraper.parseEventCard cardNoHref "NYC" "Tech" ⟨2025, 1, 1, 0, 0, 0⟩).map
        (fun e => (e.url, e.id))
      = some (LumaScraper.BASE_URL, "luma_" ++ pySplitLast LumaScraper.BASE_URL '/') :=
  c10_missing_href_base_url cardNoHref "NYC" "Tech" ⟨2025, 1, 1, 0, 0, 0⟩
    (.mk "h3" [] [] "Demo Day" []) (.mk "a" [] [] "RSVP" [])
    (.mk "time" [] [("datetime", "2025-10-01T10:00:00")] "" []) rfl rfl rfl rfl

/-- C10 counterexample: a candidate card whose first anchor has no href is
nevertheless skipped when it lacks a title — the claim's "the scrape adapter
does not skip the card" does not hold of every such card. -/
theorem c10_href_less_card_skipped :
    ((cardOnlyAnchor.find (tagIs "a")).map (fun ae => ae.attr "href") = some none)
    ∧ LumaScraper.parseEventCard cardOnlyAnchor "NYC" "Tech" ⟨2025, 1, 1, 0, 0, 0⟩
        = none := by
  refine ⟨rfl, by decide⟩
